import Mathlib

/-!
Verification of the zk-qr-demo credential core against its specification.

The development shallowly embeds the credential protocol of the repository:
the credential builder, the Ed25519 signing/verification glue
(hex transport, canonical JSON serialization, UTF-8 encoding, the lenient
hex re-parsing done at verification time), the expiry predicate, the QR
decode entry point, and the verification page's orchestration.

Conventions of the embedding:
- JavaScript byte arrays are `List Nat` (each element < 256 where relevant).
- JavaScript timestamps are exact integers (`Int`, milliseconds); the
  floating-point division `Math.floor(x / d)` for the positive integer
  constants `d` used by the code is modelled as exact floor division
  `Int.fdiv x d`.
- `Date.now()` is modelled as an explicit `nowMs : Int` parameter.
- Exceptions are modelled with `Except`/`Option`; a `try/catch` is a
  `match` on the modelled exceptional result.
- The external Ed25519 implementation (`@noble/ed25519`) is not code of
  this repository; it is a parameter `SignatureScheme` consisting of a
  total `sign` and `verify` function, and theorems about cryptographic
  behaviour take the scheme's documented properties as hypotheses.
-/

/-- A byte-level signature scheme, standing for the external
`@noble/ed25519` primitives `sign(msg, privKey)` and
`verify(sig, msg, pubKey)`. -/
structure SignatureScheme where
  sign : List Nat → List Nat → List Nat
  verify : List Nat → List Nat → List Nat → Bool

/-- `interface VerifiableCredential` from crypto.ts. -/
structure VerifiableCredential where
  iss : String
  iat : Int
  exp : Int
  name : String
  over18 : Bool

/-- `interface SignedCredential` from crypto.ts. -/
structure SignedCredential where
  payload : VerifiableCredential
  signature : String

/-- `DEMO_PRIVATE_KEY` from crypto.ts. -/
def DEMO_PRIVATE_KEY : List Nat :=
  [74, 72, 147, 198, 35, 77, 182, 204, 144, 172, 106, 178, 80, 13, 175, 106,
   221, 196, 43, 171, 135, 166, 46, 86, 127, 124, 27, 20, 138, 131, 179, 226]

/-- `DEMO_PUBLIC_KEY` from crypto.ts. -/
def DEMO_PUBLIC_KEY : List Nat :=
  [151, 240, 147, 78, 29, 200, 180, 216, 242, 14, 82, 176, 104, 174, 53, 156,
   21, 239, 175, 189, 97, 191, 35, 143, 73, 23, 198, 183, 40, 178, 64, 72]

/-- One character of `JSON.stringify` string escaping: `"` and `\` are
backslash-escaped, the control characters BS/TAB/LF/FF/CR get their short
two-character escapes, other control characters below U+0020 get a
lowercase `\u00xx` escape, and everything else passes through. -/
def jsonEscapeChar (c : Char) : List Char :=
  if c = '"' then ['\\', '"']
  else if c = '\\' then ['\\', '\\']
  else if c.toNat = 8 then ['\\', 'b']
  else if c.toNat = 9 then ['\\', 't']
  else if c.toNat = 10 then ['\\', 'n']
  else if c.toNat = 12 then ['\\', 'f']
  else if c.toNat = 13 then ['\\', 'r']
  else if c.toNat < 32 then
    ['\\', 'u', '0', '0', Nat.digitChar (c.toNat / 16), Nat.digitChar (c.toNat % 16)]
  else [c]

/-- `JSON.stringify` escaping of a whole string body (without the outer
quotes). -/
def jsonEscape (s : String) : String :=
  String.mk (s.data.map jsonEscapeChar).flatten

/-- `JSON.stringify(credential)` for a `VerifiableCredential`: object keys
appear in insertion order `iss, iat, exp, name, over18`, integers print in
decimal, the boolean prints as `true`/`false`. -/
def serializeCredential (c : VerifiableCredential) : String :=
  "\x7b\"iss\":\"" ++ jsonEscape c.iss ++ "\",\"iat\":" ++ toString c.iat ++
    ",\"exp\":" ++ toString c.exp ++ ",\"name\":\"" ++ jsonEscape c.name ++
    "\",\"over18\":" ++ (if c.over18 then "true" else "false") ++ "\x7d"

/-- UTF-8 encoding of one scalar value, as `TextEncoder().encode` produces
for valid Unicode text. -/
def utf8EncodeChar (c : Char) : List Nat :=
  let n := c.toNat
  if n < 128 then [n]
  else if n < 2048 then [192 + n / 64, 128 + n % 64]
  else if n < 65536 then [224 + n / 4096, 128 + (n / 64) % 64, 128 + n % 64]
  else [240 + n / 262144, 128 + (n / 4096) % 64, 128 + (n / 64) % 64, 128 + n % 64]

/-- `new TextEncoder().encode(s)`. -/
def utf8Encode (s : String) : List Nat :=
  (s.data.map utf8EncodeChar).flatten

/-- `b.toString(16).padStart(2, '0')` from signCredential: lowercase hex
digits of `b`, left-padded to two characters. -/
def byteToHexJS (b : Nat) : List Char :=
  let ds := Nat.toDigits 16 b
  if ds.length < 2 then '0' :: ds else ds

/-- `Array.from(signature).map(b => b.toString(16).padStart(2, '0')).join('')`. -/
def hexEncodeBytes (bs : List Nat) : String :=
  String.mk (bs.map byteToHexJS).flatten

/-- The characters `.` does not match in a JavaScript regular expression:
LF, CR, LS, PS. -/
def isLineTerminator (c : Char) : Bool :=
  c.toNat = 10 || c.toNat = 13 || c.toNat = 8232 || c.toNat = 8233

/-- The match list of `s.match(/.{2}/g)`: scan left to right, at each
position match two non-line-terminator characters, else advance one
position.  An unpaired trailing character is silently dropped. -/
def regexPairs : List Char → List (Char × Char)
  | a :: b :: rest =>
    if isLineTerminator a || isLineTerminator b then regexPairs (b :: rest)
    else (a, b) :: regexPairs rest
  | _ => []

/-- The JavaScript `StrWhiteSpaceChar` set (WhiteSpace plus
LineTerminator), as skipped by `parseInt` and removed by `trim()`. -/
def jsIsWhitespace (c : Char) : Bool :=
  let n := c.toNat
  n = 9 || n = 10 || n = 11 || n = 12 || n = 13 || n = 32 || n = 160 ||
    n = 5760 || (8192 ≤ n && n ≤ 8202) || n = 8232 || n = 8233 ||
    n = 8239 || n = 8287 || n = 12288 || n = 65279

/-- Hex digit test for `parseInt(s, 16)` (case-insensitive). -/
def isHexDigitChar (c : Char) : Bool :=
  (48 ≤ c.toNat && c.toNat ≤ 57) || (97 ≤ c.toNat && c.toNat ≤ 102) ||
    (65 ≤ c.toNat && c.toNat ≤ 70)

/-- Numeric value of a hex digit character. -/
def hexDigitVal (c : Char) : Nat :=
  if c.toNat ≤ 57 then c.toNat - 48
  else if c.toNat ≤ 70 then c.toNat - 55
  else c.toNat - 87

/-- `parseInt` radix-16 body: strip an optional `0x`/`0X` marker, then
read the longest prefix of hex digits; no digits means NaN (`none`). -/
def parseHexDigits (cs : List Char) : Option Nat :=
  let stripped :=
    match cs with
    | '0' :: c :: rest => if c = 'x' || c = 'X' then rest else '0' :: c :: rest
    | other => other
  let ds := stripped.takeWhile isHexDigitChar
  if ds.isEmpty then none
  else some (ds.foldl (fun acc c => acc * 16 + hexDigitVal c) 0)

/-- `parseInt(s, 16)`: skip leading whitespace, read an optional sign,
then parse hex digits; `none` models NaN. -/
def parseIntHexJS (s : String) : Option Int :=
  match s.data.dropWhile jsIsWhitespace with
  | '-' :: rest => (parseHexDigits rest).map (fun n => -(n : Int))
  | '+' :: rest => (parseHexDigits rest).map (fun n => (n : Int))
  | cs => (parseHexDigits cs).map (fun n => (n : Int))

/-- The `Uint8Array` element coercion `ToUint8`: NaN becomes 0, integers
are reduced modulo 256 to a non-negative residue. -/
def toUint8 : Option Int → Nat
  | none => 0
  | some i => (i.emod 256).toNat

/-- The signature re-parsing done by verifyCredential:
`new Uint8Array(signature.match(/.{2}/g)!.map(b => parseInt(b, 16)))`.
`none` models the TypeError thrown by `!` when `match` returns `null`
(no pair matched at all). -/
def hexDecodeJS (sig : String) : Option (List Nat) :=
  match regexPairs sig.data with
  | [] => none
  | ps => some (ps.map (fun p => toUint8 (parseIntHexJS (String.mk [p.1, p.2]))))

/-- `createVerifiableCredential(name, dateOfBirth)` from crypto.ts, with
`Date.now()` as the explicit `nowMs` parameter and `dateOfBirth.getTime()`
as `dateOfBirthMs`.  The constant 31557600000 is the exact value of the
source's `365.25 * 24 * 60 * 60 * 1000`. -/
def createVerifiableCredential (name : String) (dateOfBirthMs nowMs : Int) :
    VerifiableCredential :=
  let oneYear : Int := 365 * 24 * 60 * 60 * 1000
  let age : Int := Int.fdiv (nowMs - dateOfBirthMs) 31557600000
  let over18 : Bool := decide (18 ≤ age)
  { iss := "DemoIssuer"
    iat := Int.fdiv nowMs 1000
    exp := Int.fdiv (nowMs + oneYear) 1000
    name := name
    over18 := over18 }

/-- `signCredential(credential)` from crypto.ts, over an abstract
signature scheme standing for `ed25519.sign`: serialize, UTF-8 encode,
sign with the fixed `DEMO_PRIVATE_KEY`, hex-encode the signature. -/
def signCredential (S : SignatureScheme) (credential : VerifiableCredential) :
    SignedCredential :=
  let payload := serializeCredential credential
  let payloadBytes := utf8Encode payload
  let signature := S.sign payloadBytes DEMO_PRIVATE_KEY
  { payload := credential, signature := hexEncodeBytes signature }

/-- `verifyCredential(signedCredential)` from crypto.ts: re-serialize the
payload, re-parse the hex signature, check with the fixed
`DEMO_PUBLIC_KEY`.  The surrounding `try/catch` turns the TypeError of a
failed `match` (modelled by `hexDecodeJS = none`) into `false`. -/
def verifyCredential (S : SignatureScheme) (sc : SignedCredential) : Bool :=
  match hexDecodeJS sc.signature with
  | none => false
  | some sigBytes =>
      S.verify sigBytes (utf8Encode (serializeCredential sc.payload)) DEMO_PUBLIC_KEY

/-- `isCredentialExpired(credential)` from crypto.ts, with `Date.now()`
as the explicit `nowMs` parameter: `Math.floor(nowMs / 1000)` then
`credential.exp < now`. -/
def isCredentialExpired (credential : VerifiableCredential) (nowMs : Int) : Bool :=
  let now := Int.fdiv nowMs 1000
  decide (credential.exp < now)

/-- `validateAge(dateOfBirth)` from crypto.ts, with explicit `nowMs`. -/
def validateAge (dateOfBirthMs nowMs : Int) : Bool × Int :=
  let age : Int := Int.fdiv (nowMs - dateOfBirthMs) 31557600000
  (decide (18 ≤ age), age)

/-! ### The QR decode entry point and the verification page -/

/-- A parsed JavaScript JSON value, as produced by `JSON.parse`
(numbers restricted to the integers that occur in credentials). -/
inductive JsValue where
  | null
  | bool (b : Bool)
  | num (n : Int)
  | str (s : String)
  | arr (xs : List JsValue)
  | obj (fields : List (String × JsValue))

/-- JavaScript property read `v[k]`: throws a TypeError on `null`
(modelled by `Except.error`), yields the field on objects (`none` is
`undefined`), and yields `undefined` on every other primitive. -/
def getField : JsValue → String → Except Unit (Option JsValue)
  | .null, _ => .error ()
  | .obj fs, k => .ok (List.lookup k fs)
  | _, _ => .ok none

/-- Total variant of `getField` (no value read here can be `null` when it
is used). -/
def fieldOf : JsValue → String → Option JsValue
  | .obj fs, k => List.lookup k fs
  | _, _ => none

/-- JavaScript truthiness of a possibly-undefined value. -/
def truthy : Option JsValue → Bool
  | none => false
  | some .null => false
  | some (.bool b) => b
  | some (.num n) => decide (n ≠ 0)
  | some (.str s) => decide (s ≠ "")
  | some (.arr _) => true
  | some (.obj _) => true

/-- The exceptions that can be thrown inside the decode body:
a `SyntaxError` from `JSON.parse`, a TypeError from a property read on
`null`, and the two explicit `Error(...)` throws. -/
inductive JsError where
  | syntaxError
  | typeError
  | error (msg : String)

/-- `"Invalid ZK credential structure - missing required fields"`. -/
def structureMsg1 : String := "Invalid ZK credential structure - missing required fields"

/-- `"Invalid ZK proof structure - missing proof or publicSignals"`. -/
def structureMsg2 : String := "Invalid ZK proof structure - missing proof or publicSignals"

/-- The failures `decodeZKCredentialFromQR` can return: the rewrapped
`SyntaxError` (message `Failed to decode QR code - invalid JSON format`)
and the generic rewrap (message
`Failed to decode QR code to ZK credential: ...` around the inner error). -/
inductive DecodeFailure where
  | invalidJsonFormat
  | decodeError (inner : JsError)

/-- The string the decode body works on: the PixelPass decode result, or
the raw QR string itself when `PixelPass.decode` threw (the silent
fallback in decodeZKCredentialFromQR). -/
def decodedString (pp : String → Except Unit String) (qrData : String) : String :=
  match pp qrData with
  | .ok d => d
  | .error _ => qrData

/-- The try-block body of `decodeZKCredentialFromQR` after the fallback:
`JSON.parse`, then the two structure checks
`!zk.zkProof || !zk.metadata || !zk.commitment` and
`!zk.zkProof.proof || !zk.zkProof.publicSignals`, each throwing an
`Error` when it trips; property reads on `null` throw TypeError. -/
def decodeBody (jp : String → Except Unit JsValue) (decodedData : String) :
    Except JsError JsValue :=
  match jp decodedData with
  | .error _ => .error .syntaxError
  | .ok zk =>
    match getField zk "zkProof" with
    | .error _ => .error .typeError
    | .ok f1 =>
      if truthy f1 = false then .error (.error structureMsg1)
      else match getField zk "metadata" with
      | .error _ => .error .typeError
      | .ok f2 =>
        if truthy f2 = false then .error (.error structureMsg1)
        else match getField zk "commitment" with
        | .error _ => .error .typeError
        | .ok f3 =>
          if truthy f3 = false then .error (.error structureMsg1)
          else match getField zk "zkProof" with
          | .error _ => .error .typeError
          | .ok f1a =>
            match f1a with
            | none => .error .typeError
            | some v1 =>
              match getField v1 "proof" with
              | .error _ => .error .typeError
              | .ok p1 =>
                if truthy p1 = false then .error (.error structureMsg2)
                else match getField zk "zkProof" with
                | .error _ => .error .typeError
                | .ok f1b =>
                  match f1b with
                  | none => .error .typeError
                  | some v2 =>
                    match getField v2 "publicSignals" with
                    | .error _ => .error .typeError
                    | .ok p2 =>
                      if truthy p2 = false then .error (.error structureMsg2)
                      else .ok zk

/-- `decodeZKCredentialFromQR(qrData)` from zkQr.ts, parameterized by the
external `PixelPass.decode` (`pp`) and `JSON.parse` (`jp`): attempt the
structured decode, fall back silently to the raw string, parse, validate
the structure, and rewrap every thrown error — a `SyntaxError` becomes the
`invalid JSON format` failure, everything else the generic decode
failure.  No exception escapes. -/
def decodeZKCredentialFromQR (pp : String → Except Unit String)
    (jp : String → Except Unit JsValue) (qrData : String) :
    Except DecodeFailure JsValue :=
  match decodeBody jp (decodedString pp qrData) with
  | .ok v => .ok v
  | .error .syntaxError => .error .invalidJsonFormat
  | .error e => .error (.decodeError e)

/-- Modelled from the spec: `isExpired(record, now) -> bool` of §4.5
(`now > expiresAt`), applied to the ZK credential's metadata record.  The
source file defining `isZKCredentialExpired` (the zkProof utility module)
is not under src/; this follows the spec's pure time-window check, with
`now` in integer seconds as in the sibling `isCredentialExpired`. -/
def isZKCredentialExpired (zc : JsValue) (nowSec : Int) : Bool :=
  match fieldOf zc "metadata" with
  | some m =>
    match fieldOf m "exp" with
    | some (.num e) => decide (e < nowSec)
    | _ => false
  | _ => false

/-- The verification verdict state set by `processQRCode` in
VerifyPage.tsx. -/
structure VerificationResult where
  isValid : Bool
  isExpired : Bool
  zkCredential : Option JsValue
  error : Option String

/-- The user-facing message built in the catch-block of `processQRCode`
from the decode failure's message (the `includes(...)` dispatch resolved
per failure constructor: the invalid-JSON message contains `JSON`, every
generic decode failure message starts with
`Failed to decode QR code to ZK credential`). -/
def processErrorMessage : DecodeFailure → String
  | .invalidJsonFormat =>
    "Failed to process QR code. The QR code does not contain valid JSON data."
  | .decodeError _ =>
    "Failed to process QR code. The QR code does not contain a valid ZK credential structure."

/-- `processQRCode(qrData)` from VerifyPage.tsx, parameterized by the
external decoders and by the proof verifier `pv` (standing for
`verifyZKProof` of the zkProof utility module, which is not under src/):
decode, then compute the proof verdict and the expiry verdict
independently and store both in the result. -/
def processQRCode (pp : String → Except Unit String)
    (jp : String → Except Unit JsValue) (pv : JsValue → Bool)
    (nowSec : Int) (qrData : String) : VerificationResult :=
  match decodeZKCredentialFromQR pp jp qrData with
  | .error f =>
    { isValid := false, isExpired := false, zkCredential := none,
      error := some (processErrorMessage f) }
  | .ok zc =>
    let isValidProof := pv zc
    let expired := isZKCredentialExpired zc nowSec
    { isValid := isValidProof, isExpired := expired, zkCredential := some zc,
      error := if isValidProof then none
               else some "Invalid ZK proof - credential may have been tampered with" }

/-- `trim()` with the JavaScript whitespace set. -/
def jsTrim (s : String) : String :=
  String.mk (((s.data.dropWhile jsIsWhitespace).reverse.dropWhile jsIsWhitespace).reverse)

/-- The input-validation control flow of `handleGenerateCredential` in
CreatePage.tsx: refuse an empty/whitespace-only name, refuse an empty
date of birth, otherwise continue with the trimmed name (the continuation
`k` stands for the ZK issuance that follows, which lives in the zkProof
utility module, not under src/). -/
def handleGenerateCredential (k : String → String → Except String JsValue)
    (name dateOfBirth : String) : Except String JsValue :=
  if jsTrim name = "" then .error "Please enter your name"
  else if dateOfBirth = "" then .error "Please select your date of birth"
  else k (jsTrim name) dateOfBirth

/-! ### Hex transport lemmas -/

set_option maxRecDepth 10000 in
/-- For every byte, the two lowercase hex characters produced by the
signing side are explicit digit characters, are matched by `.{2}`, and
parse back to the byte on the verification side. -/
theorem byte_hex_props : ∀ b < 256,
    byteToHexJS b = [Nat.digitChar (b / 16), Nat.digitChar (b % 16)] ∧
    isLineTerminator (Nat.digitChar (b / 16)) = false ∧
    isLineTerminator (Nat.digitChar (b % 16)) = false ∧
    toUint8 (parseIntHexJS (String.mk (byteToHexJS b))) = b := by decide

theorem hexEncodeBytes_data (bs : List Nat) :
    (hexEncodeBytes bs).data = (bs.map byteToHexJS).flatten := rfl

/-- Re-parsing the hex encoding of a byte list recovers the bytes,
element by element. -/
theorem decoded_hexEncode (bs : List Nat) (h : ∀ b ∈ bs, b < 256) :
    (regexPairs ((bs.map byteToHexJS).flatten)).map
      (fun p => toUint8 (parseIntHexJS (String.mk [p.1, p.2]))) = bs := by
  induction bs with
  | nil => rfl
  | cons b rest ih =>
    have hb : b < 256 := h b (by simp)
    have hrest : ∀ x ∈ rest, x < 256 := fun x hx => h x (by simp [hx])
    obtain ⟨h1, h2, h3, h4⟩ := byte_hex_props b hb
    rw [h1] at h4
    simp only [List.map_cons, List.flatten_cons, h1, List.cons_append,
      List.nil_append]
    rw [regexPairs, h2, h3]
    simp [h4, ih hrest]

/-- `hexDecodeJS` inverts `hexEncodeBytes` on any non-empty list of
bytes: the signature written by `signCredential` is re-parsed by
`verifyCredential` into exactly the signed bytes. -/
theorem hexDecodeJS_hexEncodeBytes (bs : List Nat) (h : ∀ b ∈ bs, b < 256)
    (hne : bs ≠ []) : hexDecodeJS (hexEncodeBytes bs) = some bs := by
  have hd := decoded_hexEncode bs h
  unfold hexDecodeJS
  rw [hexEncodeBytes_data]
  cases hrp : regexPairs ((bs.map byteToHexJS).flatten) with
  | nil =>
    rw [hrp] at hd
    simp only [List.map_nil] at hd
    exact absurd hd.symm hne
  | cons p ps =>
    rw [hrp] at hd
    simpa using hd

/-- A single character UTF-8 encodes to bytes below 256. -/
theorem utf8EncodeChar_lt (c : Char) : ∀ b ∈ utf8EncodeChar c, b < 256 := by
  have hv : c.toNat < 1114112 := by
    have h := c.valid
    have he : c.toNat = c.val.toNat := rfl
    rcases h with h | ⟨h1, h2⟩
    · have : c.val.toNat < 55296 := h
      omega
    · have : c.val.toNat < 1114112 := h2
      omega
  intro b hb
  simp only [utf8EncodeChar] at hb
  split_ifs at hb <;> simp at hb <;> omega

/-- `TextEncoder` output is genuinely a byte list: every element is
below 256. -/
theorem utf8Encode_lt (s : String) : ∀ b ∈ utf8Encode s, b < 256 := by
  intro b hb
  unfold utf8Encode at hb
  simp only [List.mem_flatten, List.mem_map] at hb
  obtain ⟨l, ⟨c, _, hcl⟩, hbl⟩ := hb
  exact utf8EncodeChar_lt c b (hcl ▸ hbl)

/-! ### Claim C4 -/

/-- C4: `createVerifiableCredential` computes
`age = floor((now - birthDate) / (365.25 * 24 * 60 * 60 * 1000))`, sets
the over-18 claim to `age >= 18`, sets `iat` to `now` in integer seconds
and `exp` to `now` plus a fixed 365-day offset in integer seconds
(`floor(now / 1000) + 365 * 24 * 60 * 60`), and consequently every built
credential satisfies `exp > iat`. -/
theorem C4_builder_arithmetic (name : String) (birth now : Int) :
    (createVerifiableCredential name birth now).iss = "DemoIssuer" ∧
    (createVerifiableCredential name birth now).iat = Int.fdiv now 1000 ∧
    (createVerifiableCredential name birth now).exp
      = Int.fdiv now 1000 + 365 * 24 * 60 * 60 ∧
    (createVerifiableCredential name birth now).name = name ∧
    (createVerifiableCredential name birth now).over18
      = decide (18 ≤ Int.fdiv (now - birth) 31557600000) ∧
    (createVerifiableCredential name birth now).iat
      < (createVerifiableCredential name birth now).exp := by
  have hexp : (createVerifiableCredential name birth now).exp
      = Int.fdiv now 1000 + 31536000 := by
    show Int.fdiv (now + 365 * 24 * 60 * 60 * 1000) 1000 = _
    have h1 : (365 * 24 * 60 * 60 * 1000 : Int) = 31536000 * 1000 := by norm_num
    rw [h1, Int.fdiv_eq_ediv _ (by norm_num), Int.fdiv_eq_ediv _ (by norm_num),
      Int.add_mul_ediv_right _ _ (by norm_num : (1000 : Int) ≠ 0)]
  have hiat : (createVerifiableCredential name birth now).iat = Int.fdiv now 1000 := rfl
  refine ⟨rfl, rfl, ?_, rfl, rfl, ?_⟩
  · rw [hexp]; norm_num
  · rw [hiat, hexp]; omega

/-! ### Claim C6 -/

/-- C6: `isCredentialExpired` returns true iff the current time (in
seconds, `floor(nowMs / 1000)`) strictly exceeds `exp`; in particular it
returns false when the current time equals `exp` exactly.  The function
is embedded as a pure function of the credential and the clock value. -/
theorem C6_expiry_predicate (c : VerifiableCredential) (nowMs : Int) :
    (isCredentialExpired c nowMs = true ↔ c.exp < Int.fdiv nowMs 1000) ∧
    isCredentialExpired c (c.exp * 1000) = false := by
  constructor
  · simp [isCredentialExpired]
  · have h : Int.fdiv (c.exp * 1000) 1000 = c.exp := by
      rw [Int.fdiv_eq_ediv _ (by norm_num)]
      exact Int.mul_ediv_cancel _ (by norm_num)
    simp [isCredentialExpired, h]

/-! ### Claim C3 -/

/-- C3 counterexample: at `now` = 2024-01-01 with birth date 2010-01-01
(computed age 13, below 18), `createVerifiableCredential` does not fail:
it returns a full credential (with `over18 = false`).  The claim that
issuance fails with an AgeRequirementError and produces no credential is
false for this builder. -/
theorem C3_counterexample :
    Int.fdiv ((1704067200000 : Int) - 1262304000000) 31557600000 < 18 ∧
    createVerifiableCredential "Bob" 1262304000000 1704067200000 =
      { iss := "DemoIssuer", iat := 1704067200, exp := 1735603200,
        name := "Bob", over18 := false } := by
  exact ⟨by decide, rfl⟩

/-- C3 (amended): `createVerifiableCredential` does not refuse an
under-18 subject; it returns a credential whose age claim is `false`
whenever the computed age is below 18, so the builder never emits a
credential claiming `over18 = true` for such a subject.  (The refusal
path lives in the separate ZK issuance flow, not in this builder.) -/
theorem C3_amended (name : String) (birth now : Int)
    (h : Int.fdiv (now - birth) 31557600000 < 18) :
    (createVerifiableCredential name birth now).over18 = false := by
  have hov : (createVerifiableCredential name birth now).over18
      = decide (18 ≤ Int.fdiv (now - birth) 31557600000) := rfl
  rw [hov]
  simp only [decide_eq_false_iff_not]
  omega

/-- Witness for the amended C3 at the concrete under-18 input. -/
theorem C3_amended_witness :
    Int.fdiv ((1704067200000 : Int) - 1262304000000) 31557600000 < 18 ∧
    (createVerifiableCredential "Bob" 1262304000000 1704067200000).over18 = false :=
  ⟨by decide, C3_amended "Bob" 1262304000000 1704067200000 (by decide)⟩

/-! ### Claim C9 -/

/-- C9 counterexample: for the whitespace-only name `" "`,
`createVerifiableCredential` does not fail with a ValidationError — it
returns a full credential carrying that name. -/
theorem C9_counterexample :
    jsTrim " " = "" ∧
    createVerifiableCredential " " 0 1704067200000 =
      { iss := "DemoIssuer", iat := 1704067200, exp := 1735603200,
        name := " ", over18 := true } := by
  exact ⟨rfl, rfl⟩

/-- C9 (amended): the empty/whitespace name check lives in the UI
handler, not in the builder: `handleGenerateCredential` refuses with the
`Please enter your name` error (producing no credential) whenever the
trimmed name is empty, while `createVerifiableCredential` itself performs
no name validation and stores the supplied name unchanged. -/
theorem C9_amended (k : String → String → Except String JsValue)
    (name dateOfBirth : String) (birth now : Int) (h : jsTrim name = "") :
    handleGenerateCredential k name dateOfBirth = .error "Please enter your name" ∧
    (createVerifiableCredential name birth now).name = name := by
  constructor
  · unfold handleGenerateCredential
    rw [h]
    rfl
  · rfl

/-- Witness for the amended C9 at a concrete whitespace-only name. -/
theorem C9_amended_witness :
    handleGenerateCredential (fun _ _ => .error "unused") "  " "2000-01-01"
      = .error "Please enter your name" ∧
    (createVerifiableCredential "  " 0 0).name = "  " :=
  C9_amended (fun _ _ => .error "unused") "  " "2000-01-01" 0 0 (by decide)

/-! ### Claim C1 -/

/-- C1: round-trip correctness.  For any signature scheme satisfying the
Ed25519 correctness contract (a signature produced under the demo private
key verifies under the demo public key; signatures are non-empty byte
lists), a credential built at `now` for a subject of computed age at
least 18, signed with `signCredential`, verifies with `verifyCredential`,
and `isCredentialExpired` on its payload at the same `now` is false. -/
theorem C1_round_trip (S : SignatureScheme)
    (hcorrect : ∀ msg, S.verify (S.sign msg DEMO_PRIVATE_KEY) msg DEMO_PUBLIC_KEY = true)
    (hbytes : ∀ msg, ∀ b ∈ S.sign msg DEMO_PRIVATE_KEY, b < 256)
    (hlen : ∀ msg, S.sign msg DEMO_PRIVATE_KEY ≠ [])
    (name : String) (birth now : Int)
    (hage : 18 ≤ Int.fdiv (now - birth) 31557600000) :
    (createVerifiableCredential name birth now).over18 = true ∧
    verifyCredential S (signCredential S (createVerifiableCredential name birth now)) = true ∧
    isCredentialExpired (createVerifiableCredential name birth now) now = false := by
  refine ⟨?_, ?_, ?_⟩
  · have hov : (createVerifiableCredential name birth now).over18
        = decide (18 ≤ Int.fdiv (now - birth) 31557600000) := rfl
    rw [hov]
    simpa using hage
  · show verifyCredential S
      { payload := createVerifiableCredential name birth now,
        signature := hexEncodeBytes (S.sign
          (utf8Encode (serializeCredential (createVerifiableCredential name birth now)))
          DEMO_PRIVATE_KEY) } = true
    unfold verifyCredential
    rw [hexDecodeJS_hexEncodeBytes _ (hbytes _) (hlen _)]
    exact hcorrect _
  · have hexp : (createVerifiableCredential name birth now).exp
        = Int.fdiv now 1000 + 31536000 := by
      show Int.fdiv (now + 365 * 24 * 60 * 60 * 1000) 1000 = _
      have h1 : (365 * 24 * 60 * 60 * 1000 : Int) = 31536000 * 1000 := by norm_num
      rw [h1, Int.fdiv_eq_ediv _ (by norm_num), Int.fdiv_eq_ediv _ (by norm_num),
        Int.add_mul_ediv_right _ _ (by norm_num : (1000 : Int) ≠ 0)]
    unfold isCredentialExpired
    rw [hexp]
    simp only [decide_eq_false_iff_not]
    omega

/-- A trivial scheme satisfying the correctness contract, used to witness
the hypotheses of `C1_round_trip`. -/
def toy7 : SignatureScheme :=
  { sign := fun _ _ => [7], verify := fun sig _ _ => decide (sig = [7]) }

/-- Witness for C1 at a concrete scheme and aged-20 input. -/
theorem C1_round_trip_witness :
    (createVerifiableCredential "Alice" 0 631152000000).over18 = true ∧
    verifyCredential toy7 (signCredential toy7
      (createVerifiableCredential "Alice" 0 631152000000)) = true ∧
    isCredentialExpired (createVerifiableCredential "Alice" 0 631152000000)
      631152000000 = false :=
  C1_round_trip toy7 (fun _ => rfl)
    (fun msg b hb => by simp [toy7] at hb; omega)
    (fun msg => by simp [toy7])
    "Alice" 0 631152000000 (by decide)

/-! ### Claim C10 -/

/-- C10: the key material is hard-coded.  `signCredential` signs with the
fixed `DEMO_PRIVATE_KEY` (first conjunct, definitional), and for any
scheme in which only genuine demo-key signatures verify under
`DEMO_PUBLIC_KEY` and in which a different private key produces a
different signature, a credential signed under any other key never
verifies. -/
theorem C10_demo_keys (S : SignatureScheme)
    (hsound : ∀ sig msg, S.verify sig msg DEMO_PUBLIC_KEY = true →
      sig = S.sign msg DEMO_PRIVATE_KEY)
    (c : VerifiableCredential) (sk : List Nat)
    (hkey : ∀ msg, S.sign msg sk ≠ S.sign msg DEMO_PRIVATE_KEY)
    (hbytes : ∀ b ∈ S.sign (utf8Encode (serializeCredential c)) sk, b < 256)
    (hlen : S.sign (utf8Encode (serializeCredential c)) sk ≠ []) :
    signCredential S c =
      { payload := c,
        signature := hexEncodeBytes
          (S.sign (utf8Encode (serializeCredential c)) DEMO_PRIVATE_KEY) } ∧
    verifyCredential S
      { payload := c,
        signature := hexEncodeBytes
          (S.sign (utf8Encode (serializeCredential c)) sk) } = false := by
  refine ⟨rfl, ?_⟩
  unfold verifyCredential
  rw [hexDecodeJS_hexEncodeBytes _ hbytes hlen]
  show S.verify (S.sign (utf8Encode (serializeCredential c)) sk)
    (utf8Encode (serializeCredential c)) DEMO_PUBLIC_KEY = false
  cases hv : S.verify (S.sign (utf8Encode (serializeCredential c)) sk)
      (utf8Encode (serializeCredential c)) DEMO_PUBLIC_KEY with
  | false => rfl
  | true => exact absurd (hsound _ _ hv) (hkey _)

/-- A scheme binding signatures to the demo private key, used to witness
the hypotheses of `C10_demo_keys`. -/
def toyKey : SignatureScheme :=
  { sign := fun msg k => k ++ msg,
    verify := fun sig msg _ => decide (sig = DEMO_PRIVATE_KEY ++ msg) }

/-- A small fixed credential used in concrete witnesses. -/
def cW : VerifiableCredential :=
  { iss := "A", iat := 0, exp := 1, name := "B", over18 := false }

/-- Witness for C10: under `toyKey`, the signature produced with a
different private key (`[0]`) is rejected. -/
theorem C10_demo_keys_witness :
    signCredential toyKey cW =
      { payload := cW,
        signature := hexEncodeBytes
          (toyKey.sign (utf8Encode (serializeCredential cW)) DEMO_PRIVATE_KEY) } ∧
    verifyCredential toyKey
      { payload := cW,
        signature := hexEncodeBytes
          (toyKey.sign (utf8Encode (serializeCredential cW)) [0]) } = false :=
  C10_demo_keys toyKey (fun _ _ h => of_decide_eq_true h) cW [0]
    (fun msg h => by
      have hl := congrArg List.length h
      simp [toyKey, DEMO_PRIVATE_KEY, List.length_append] at hl)
    (by decide) (by decide)

/-! ### Claim C2 -/

/-- A scheme whose only signature is the byte 0xAB, used in the C2
counterexample; its genuine hex signature is the string `ab`. -/
def toy171 : SignatureScheme :=
  { sign := fun _ _ => [171], verify := fun sig _ _ => decide (sig = [171]) }

/-- C2 counterexample: the hex re-parsing of `verifyCredential` is
case-insensitive, so flipping a single bit of the signature string (the
0x20 bit turning `a` into `A`) yields a pair that still verifies as
true.  A single-bit mutation of the signature therefore does not always
cause verification to fail, refuting the claim as stated (and the code
returns a bare boolean, with no SignatureError reason at all). -/
theorem C2_counterexample :
    (signCredential toy171 cW).signature = "ab" ∧
    ("Ab" : String) ≠ "ab" ∧
    ('a'.toNat ^^^ 'A'.toNat) = 32 ∧
    verifyCredential toy171 { payload := cW, signature := "Ab" } = true := by
  exact ⟨rfl, by decide, by decide, rfl⟩

/-- C2 (amended): for any scheme in which only the genuine demo-key
signature of a message verifies, and signing is injective in the
message, verification rejects every pair that differs from the signed
original at the byte level: a payload whose serialized bytes differ from
the original's, or a signature string whose (lenient) hex decoding
differs from the signed bytes.  Mutations of the signature string that
decode to the same bytes (such as a hex-letter case flip) are not
detected, and failure is reported as a bare `false`, not a
SignatureError reason. -/
theorem C2_amended (S : SignatureScheme)
    (hsound : ∀ sig msg, S.verify sig msg DEMO_PUBLIC_KEY = true →
      sig = S.sign msg DEMO_PRIVATE_KEY)
    (hinj : ∀ m m', S.sign m DEMO_PRIVATE_KEY = S.sign m' DEMO_PRIVATE_KEY → m = m')
    (hbytes : ∀ c : VerifiableCredential,
      ∀ b ∈ S.sign (utf8Encode (serializeCredential c)) DEMO_PRIVATE_KEY, b < 256)
    (hlen : ∀ c : VerifiableCredential,
      S.sign (utf8Encode (serializeCredential c)) DEMO_PRIVATE_KEY ≠ []) :
    (∀ c c2 : VerifiableCredential,
      utf8Encode (serializeCredential c2) ≠ utf8Encode (serializeCredential c) →
      verifyCredential S
        { payload := c2, signature := (signCredential S c).signature } = false) ∧
    (∀ (c : VerifiableCredential) (sig : String) (bs : List Nat),
      hexDecodeJS sig = some bs →
      bs ≠ S.sign (utf8Encode (serializeCredential c)) DEMO_PRIVATE_KEY →
      verifyCredential S { payload := c, signature := sig } = false) := by
  constructor
  · intro c c2 hne
    show verifyCredential S
      { payload := c2,
        signature := hexEncodeBytes
          (S.sign (utf8Encode (serializeCredential c)) DEMO_PRIVATE_KEY) } = false
    unfold verifyCredential
    rw [hexDecodeJS_hexEncodeBytes _ (hbytes c) (hlen c)]
    show S.verify (S.sign (utf8Encode (serializeCredential c)) DEMO_PRIVATE_KEY)
      (utf8Encode (serializeCredential c2)) DEMO_PUBLIC_KEY = false
    cases hv : S.verify (S.sign (utf8Encode (serializeCredential c)) DEMO_PRIVATE_KEY)
        (utf8Encode (serializeCredential c2)) DEMO_PUBLIC_KEY with
    | false => rfl
    | true => exact absurd (hinj _ _ (hsound _ _ hv)).symm hne
  · intro c sig bs hdec hbs
    unfold verifyCredential
    rw [hdec]
    show S.verify bs (utf8Encode (serializeCredential c)) DEMO_PUBLIC_KEY = false
    cases hv : S.verify bs (utf8Encode (serializeCredential c)) DEMO_PUBLIC_KEY with
    | false => rfl
    | true => exact absurd (hsound _ _ hv) hbs

/-- A message-injective demo-key-bound scheme, used to witness the
hypotheses of `C2_amended`. -/
def toyInj : SignatureScheme :=
  { sign := fun msg _ => 1 :: msg, verify := fun sig msg _ => decide (sig = 1 :: msg) }

/-- A second fixed credential, differing from `cW` in its name. -/
def cW2 : VerifiableCredential :=
  { iss := "A", iat := 0, exp := 1, name := "C", over18 := false }

/-- Witness for the amended C2: under `toyInj`, a swapped payload and a
wrong-bytes signature are both rejected. -/
theorem C2_amended_witness :
    verifyCredential toyInj
      { payload := cW2, signature := (signCredential toyInj cW).signature } = false ∧
    verifyCredential toyInj { payload := cW, signature := "00" } = false := by
  have h := C2_amended toyInj
    (fun sig msg hv => of_decide_eq_true hv)
    (fun m m' hm => by simpa [toyInj] using hm)
    (fun c b hb => by
      rcases List.mem_cons.mp (by simpa [toyInj] using hb) with h1 | h1
      · omega
      · exact utf8Encode_lt _ b h1)
    (fun c => by simp [toyInj])
  refine ⟨h.1 cW cW2 (by decide), h.2 cW "00" [0] (by decide) (by decide)⟩

/-! ### Claim C7 -/

/-- C7 counterexample: a malformed hex signature does not always yield
false.  The signature string `abz` has odd length and contains a
non-hex character, yet under `toy171` (whose genuine signature decodes
from `ab`) verification returns true: the pair regex silently drops the
unpaired trailing character. -/
theorem C7_counterexample :
    ("abz" : String).length % 2 = 1 ∧
    (∃ ch ∈ ("abz" : String).data, isHexDigitChar ch = false) ∧
    verifyCredential toy171 { payload := cW, signature := "abz" } = true := by
  exact ⟨by decide, by decide, rfl⟩

/-- C7 (amended): `verifyCredential` never throws — every exception path
is caught and the function is a total boolean.  It returns true exactly
when the lenient hex re-parse of the signature succeeds and the scheme
accepts the decoded bytes; a signature with no regex pair at all (such
as the empty string, whose failed match throws the caught TypeError)
yields false, and a cryptographic failure yields false.  Malformed hex
is not always rejected, however: the parse drops an unpaired trailing
character and coerces non-hex pairs, so some malformed signatures still
verify (see the counterexample). -/
theorem C7_amended (S : SignatureScheme) :
    (∀ sc : SignedCredential, verifyCredential S sc = true ↔
      ∃ bs, hexDecodeJS sc.signature = some bs ∧
        S.verify bs (utf8Encode (serializeCredential sc.payload)) DEMO_PUBLIC_KEY = true) ∧
    hexDecodeJS "" = none ∧
    (∀ c : VerifiableCredential,
      verifyCredential S { payload := c, signature := "" } = false) := by
  refine ⟨?_, rfl, fun c => rfl⟩
  intro sc
  unfold verifyCredential
  cases h : hexDecodeJS sc.signature with
  | none => simp [h]
  | some bs => simp [h]

/-! ### Claim C8 -/

/-- Success characterization of the decode try-block: a returned value is
exactly the parsed JSON, and each of the five required fields was found
present and truthy (so any parsed object missing one of them is
rejected). -/
theorem decodeBody_ok (jp : String → Except Unit JsValue) (d : String) (v : JsValue)
    (h : decodeBody jp d = .ok v) :
    jp d = .ok v ∧
    ∃ z, getField v "zkProof" = .ok (some z) ∧ truthy (some z) = true ∧
      (∃ m, getField v "metadata" = .ok m ∧ truthy m = true) ∧
      (∃ cm, getField v "commitment" = .ok cm ∧ truthy cm = true) ∧
      (∃ p, getField z "proof" = .ok p ∧ truthy p = true) ∧
      (∃ q, getField z "publicSignals" = .ok q ∧ truthy q = true) := by
  unfold decodeBody at h
  split at h
  · exact absurd h (by simp)
  · rename_i zk hjp
    split at h
    · exact absurd h (by simp)
    · rename_i f1 hf1
      split at h
      · exact absurd h (by simp)
      · rename_i hf1t
        split at h
        · exact absurd h (by simp)
        · rename_i f2 hf2
          split at h
          · exact absurd h (by simp)
          · rename_i hf2t
            split at h
            · exact absurd h (by simp)
            · rename_i f3 hf3
              split at h
              · exact absurd h (by simp)
              · rename_i hf3t
                split at h
                · exact absurd h (by simp)
                · rename_i f1a hf1a
                  split at h
                  · exact absurd h (by simp)
                  · rename_i v1 hv1
                    split at h
                    · exact absurd h (by simp)
                    · rename_i p1 hp1
                      split at h
                      · exact absurd h (by simp)
                      · rename_i hp1t
                        split at h
                        · exact absurd h (by simp)
                        · rename_i f1b hf1b
                          split at h
                          · exact absurd h (by simp)
                          · rename_i v2 hv2
                            split at h
                            · exact absurd h (by simp)
                            · rename_i p2 hp2
                              split at h
                              · exact absurd h (by simp)
                              · rename_i hp2t
                                cases h
                                have e1 : f1 = some hv1 := Except.ok.inj hf1a
                                have e2 : hv1 = hv2 := Option.some.inj (Except.ok.inj hf1b)
                                rw [e1] at hf1t
                                refine ⟨hjp, hv1, by rw [hf1, e1], by simpa using hf1t,
                                  ⟨f2, hf2, by simpa using hf2t⟩,
                                  ⟨f3, hf3, by simpa using hf3t⟩,
                                  ⟨p1, hp1, by simpa using hp1t⟩,
                                  ⟨p2, by rw [e2]; exact hp2, by simpa using hp2t⟩⟩

/-- C8: the decode entry point first attempts the structured PixelPass
decode and falls back silently to the raw input string when that decode
throws (first conjunct: with a failing `pp` the result is the same as
with the identity decode); an input whose decoded string is not valid
JSON is rejected with the `invalid JSON format` failure rather than an
uncaught exception (second conjunct); and a successfully returned value
is the parsed JSON with all of `zkProof`, `metadata`, `commitment`,
`proof` and `publicSignals` present and truthy — any parsed object
missing one of them is rejected (third conjunct). -/
theorem C8_decode_entry (pp : String → Except Unit String)
    (jp : String → Except Unit JsValue) (qr : String) :
    (∀ e : Unit, pp qr = .error e →
      decodeZKCredentialFromQR pp jp qr
        = decodeZKCredentialFromQR (fun s => .ok s) jp qr) ∧
    (jp (decodedString pp qr) = .error () →
      decodeZKCredentialFromQR pp jp qr = .error .invalidJsonFormat) ∧
    (∀ v, decodeZKCredentialFromQR pp jp qr = .ok v →
      jp (decodedString pp qr) = .ok v ∧
      ∃ z, getField v "zkProof" = .ok (some z) ∧ truthy (some z) = true ∧
        (∃ m, getField v "metadata" = .ok m ∧ truthy m = true) ∧
        (∃ cm, getField v "commitment" = .ok cm ∧ truthy cm = true) ∧
        (∃ p, getField z "proof" = .ok p ∧ truthy p = true) ∧
        (∃ q, getField z "publicSignals" = .ok q ∧ truthy q = true)) := by
  refine ⟨?_, ?_, ?_⟩
  · intro e he
    unfold decodeZKCredentialFromQR decodedString
    rw [he]
  · intro hj
    unfold decodeZKCredentialFromQR decodeBody
    rw [hj]
  · intro v hv
    unfold decodeZKCredentialFromQR at hv
    have hb : decodeBody jp (decodedString pp qr) = .ok v := by
      cases hbd : decodeBody jp (decodedString pp qr) with
      | ok w => rw [hbd] at hv; cases hv; rfl
      | error e =>
        rw [hbd] at hv
        cases e <;> exact absurd hv (by simp)
    exact decodeBody_ok jp (decodedString pp qr) v hb

/-- PixelPass decoder stub that always succeeds with a fixed non-JSON
string, for the C8 witness. -/
def wpp8 : String → Except Unit String := fun _ => .ok "notjson"

/-- PixelPass decoder stub that always throws, for the C8 witness. -/
def wppE : String → Except Unit String := fun _ => .error ()

/-- JSON parser stub that always fails with a SyntaxError, for the C8
witness. -/
def wjp8 : String → Except Unit JsValue := fun _ => .error ()

/-- Witness for C8: the fallback equation at a throwing PixelPass
decoder, and the invalid-JSON rejection at a failing parser. -/
theorem C8_decode_entry_witness :
    decodeZKCredentialFromQR wppE wjp8 "x"
      = decodeZKCredentialFromQR (fun s => .ok s) wjp8 "x" ∧
    decodeZKCredentialFromQR wpp8 wjp8 "x" = .error .invalidJsonFormat :=
  ⟨(C8_decode_entry wppE wjp8 "x").1 () rfl,
   (C8_decode_entry wpp8 wjp8 "x").2.1 rfl⟩

/-! ### Claim C5 -/

/-- C5: in `processQRCode`, the expiry check is evaluated independently
of the proof check: for every successfully decoded credential whose
metadata `exp` lies strictly before `now`, the result reports
`isExpired = true` while `isValid` equals whatever the proof verifier
returned — so a forged-but-unexpired credential (`isValid = false,
isExpired = false`) and a genuine-but-expired one (`isValid = true,
isExpired = true`) are distinguishable. -/
theorem C5_temporal_independence (pp : String → Except Unit String)
    (jp : String → Except Unit JsValue) (pv : JsValue → Bool)
    (nowSec : Int) (qr : String) (zc m : JsValue) (e : Int)
    (hdec : decodeZKCredentialFromQR pp jp qr = .ok zc)
    (hm : fieldOf zc "metadata" = some m)
    (he : fieldOf m "exp" = some (.num e))
    (hexp : e < nowSec) :
    (processQRCode pp jp pv nowSec qr).isExpired = true ∧
    (processQRCode pp jp pv nowSec qr).isValid = pv zc := by
  unfold processQRCode
  rw [hdec]
  constructor
  · show isZKCredentialExpired zc nowSec = true
    unfold isZKCredentialExpired
    rw [hm]
    show (match fieldOf m "exp" with
          | some (JsValue.num e) => decide (e < nowSec)
          | _ => false) = true
    rw [he]
    show decide (e < nowSec) = true
    simpa using hexp
  · rfl

/-- A concrete decoded ZK credential whose metadata expired at second
100, for the C5 witness. -/
def zc5 : JsValue :=
  .obj [("zkProof", .obj [("proof", .str "p"), ("publicSignals", .arr [.str "1"])]),
        ("metadata", .obj [("exp", .num 100)]),
        ("commitment", .str "c")]

/-- PixelPass decoder stub that always throws, for the C5 witness. -/
def wpp5 : String → Except Unit String := fun _ => .error ()

/-- JSON parser stub returning the fixed credential `zc5`, for the C5
witness. -/
def wjp5 : String → Except Unit JsValue := fun _ => .ok zc5

/-- Proof verifier stub that always rejects, for the C5 witness. -/
def wpv5 : JsValue → Bool := fun _ => false

/-- Witness for C5: at `now = 200` the expired verdict is true even
though the proof verifier rejected. -/
theorem C5_temporal_independence_witness :
    (processQRCode wpp5 wjp5 wpv5 200 "q").isExpired = true ∧
    (processQRCode wpp5 wjp5 wpv5 200 "q").isValid = false :=
  C5_temporal_independence wpp5 wjp5 wpv5 200 "q" zc5
    (.obj [("exp", .num 100)]) 100 rfl rfl rfl (by decide)
